import Mathlib

/-!
Verification development for the Direction Companion backend
(`main.py`, `schemas.py`): a shallow embedding of the guidance rule
engine, the record store endpoints and the export formatter, together
with theorems settling the specified behaviour.
-/

/-! ### Python string primitives

Models of the Python `str` operations used by `main.py`, restricted to
the ASCII behaviour they are applied to in this code base.
-/

/-- Model of Python `str.lower` on one character (ASCII letters). -/
def pyLowerChar (c : Char) : Char :=
  if 65 ≤ c.toNat ∧ c.toNat ≤ 90 then Char.ofNat (c.toNat + 32) else c

/-- Model of Python `str.lower`. -/
def pyLower (s : String) : String := ⟨s.data.map pyLowerChar⟩

/-- Whitespace characters stripped by Python `str.strip` (ASCII). -/
def pySpace (c : Char) : Bool :=
  c == ' ' || c == '\t' || c == '\n' || c == '\r' || c == '\x0b' || c == '\x0c'

/-- Model of Python `str.strip`: drop leading and trailing whitespace. -/
def pyStrip (s : String) : String :=
  ⟨((s.data.dropWhile pySpace).reverse.dropWhile pySpace).reverse⟩

/-- Whether the first list is an initial segment of the second. -/
def listStartsWith : List Char → List Char → Bool
  | [], _ => true
  | _ :: _, [] => false
  | a :: as, b :: bs => a == b && listStartsWith as bs

/-- Whether the first list occurs as a contiguous segment of the second. -/
def listHasSub (needle : List Char) : List Char → Bool
  | [] => needle.isEmpty
  | c :: rest => listStartsWith needle (c :: rest) || listHasSub needle rest

/-- Model of the Python membership test `needle in hay` on strings:
contiguous-substring containment (with the empty needle contained in
every string). -/
def pyContains (hay needle : String) : Bool := listHasSub needle.data hay.data

/-- Model of Python `sep.join(parts)`. -/
def pyJoin (sep : String) : List String → String
  | [] => ""
  | [x] => x
  | x :: y :: xs => x ++ sep ++ pyJoin sep (y :: xs)

/-! ### Guidance Rule Engine (`main.py`, `build_distilled_and_guidance`,
lines 73 to 127)

The literal suggestion and message strings are copied verbatim from the
source, including the typographic apostrophes and dashes it uses.
-/

/-- The five questionnaire fields of `ReflectionInput` (`main.py`, lines
65 to 70). -/
structure ReflectionInput where
  feeling : String
  area : String
  challenge : String
  desired_outcome : String
  action_timeline : String
deriving DecidableEq

/-- Career suggestions appended when the area mentions career
(`main.py`, lines 88 to 92). -/
def careerSuggestions : List String :=
  ["List 3 roles or paths that genuinely excite you.",
   "Draft a tiny experiment for each (coffee chat, 1-day trial project, or a short course)."]

/-- Mindset suggestions appended when the area mentions growth or
mindset (`main.py`, lines 93 to 97). -/
def growthMindsetSuggestions : List String :=
  ["Write a 2-sentence reframe of your current self-talk.",
   "Choose one practice to repeat daily for 7 days (journaling, meditation, or movement)."]

/-- Purpose suggestions appended when the area mentions purpose
(`main.py`, lines 98 to 102). -/
def purposeSuggestions : List String :=
  ["Identify a person or group you want to positively impact this month.",
   "Describe how your strengths could serve them in one simple action."]

/-- Relationship suggestions appended when the area mentions
relationship (`main.py`, lines 103 to 107). -/
def relationshipSuggestions : List String :=
  ["Note one honest feeling you haven’t voiced yet—then plan a gentle, specific share.",
   "Ask one curious question that invites deeper understanding."]

/-- Decision suggestions appended when the area mentions decision
(`main.py`, lines 108 to 112). -/
def decisionSuggestions : List String :=
  ["Write the 2 best options. For each, list 3 pros, 3 cons, and how Future-You feels.",
   "Do a 24-hour pause after deciding, then re-check your felt sense."]

/-- The urgency keywords tested against the normalized timeline
(`main.py`, line 115). -/
def urgencyKeywords : List String := ["now", "today", "1", "one", "2", "soon", "week"]

/-- The urgent timeline nudge (`main.py`, line 116). -/
def urgentNudge : String :=
  "Pick the smallest 15-minute action and schedule it in your calendar right now."

/-- The non-urgent timeline nudge (`main.py`, line 118). -/
def calmNudge : String :=
  "Block a 30-minute slot this week to design your next step without distractions."

/-- The stuck-group feeling keywords (`main.py`, line 122). -/
def stuckKeywords : List String := ["stuck", "lost", "overwhelmed", "anxious"]

/-- The hopeful-group feeling keywords (`main.py`, line 124). -/
def hopefulKeywords : List String := ["hopeful", "excited", "curious", "ready"]

/-- The neutral default message (`main.py`, line 121). -/
def neutralMessage : String := "Progress comes from gentle steps."

/-- The reassurance line for the stuck group (`main.py`, line 123). -/
def stuckMessage : String :=
  "You’re not behind. Even one clear, kind step is real momentum."

/-- The momentum line for the hopeful group (`main.py`, line 125). -/
def hopefulMessage : String := "Your curiosity is the signal—follow it lightly."

/-- The area-gated suggestion blocks (`main.py`, lines 86 to 112): each
category is tested independently against the normalized area, and every
matching pair of suggestions is appended, in this fixed order. -/
def areaGuidance (area : String) : List String :=
  (if pyContains area "career" then careerSuggestions else []) ++
  (if pyContains area "growth" || pyContains area "mindset" then growthMindsetSuggestions else []) ++
  (if pyContains area "purpose" then purposeSuggestions else []) ++
  (if pyContains area "relationship" then relationshipSuggestions else []) ++
  (if pyContains area "decision" then decisionSuggestions else [])

/-- The timeline nudge (`main.py`, lines 114 to 118): urgent when any
urgency keyword occurs in the normalized timeline, else non-urgent. -/
def timelineNudgeFor (timeline : String) : String :=
  if urgencyKeywords.any (fun k => pyContains timeline k) then urgentNudge else calmNudge

/-- The feeling-based message (`main.py`, lines 120 to 125): a neutral
default, overwritten by the stuck-group check, itself overwritten by the
hopeful-group check; the two checks are independent statements in the
source, not an if/else chain. -/
def feelingMessageFor (feeling : String) : String :=
  let uplifting := neutralMessage
  let uplifting := if stuckKeywords.any (fun k => pyContains feeling k) then stuckMessage else uplifting
  if hopefulKeywords.any (fun k => pyContains feeling k) then hopefulMessage else uplifting

/-- `build_distilled_and_guidance` (`main.py`, lines 73 to 127): the
pure guidance rule engine, returning the distilled sentence, the ordered
guidance list and the uplifting message. -/
def build_distilled_and_guidance (d : ReflectionInput) : String × List String × String :=
  let feeling := pyLower (pyStrip d.feeling)
  let area := pyLower (pyStrip d.area)
  let challenge := pyStrip d.challenge
  let desired := pyStrip d.desired_outcome
  let timeline := pyLower (pyStrip d.action_timeline)
  let distilled :=
    "You’re feeling " ++ feeling ++ " and seeking direction in " ++ area ++
    ". The core block seems to be: " ++ challenge ++
    ". You hope to come away with: " ++ desired ++ "."
  (distilled, areaGuidance area ++ [timelineNudgeFor timeline], feelingMessageFor feeling)

/-- Normalized feeling, as computed at `main.py` line 74. -/
def normFeeling (d : ReflectionInput) : String := pyLower (pyStrip d.feeling)

/-- Normalized area, as computed at `main.py` line 75. -/
def normArea (d : ReflectionInput) : String := pyLower (pyStrip d.area)

/-- Normalized timeline, as computed at `main.py` line 78. -/
def normTimeline (d : ReflectionInput) : String := pyLower (pyStrip d.action_timeline)

/-- The distilled component of the engine output. -/
def distilledOf (d : ReflectionInput) : String := (build_distilled_and_guidance d).1

/-- The guidance-list component of the engine output. -/
def guidanceOf (d : ReflectionInput) : List String := (build_distilled_and_guidance d).2.1

/-- The message component of the engine output. -/
def messageOf (d : ReflectionInput) : String := (build_distilled_and_guidance d).2.2

/-- Shorthand for building a `ReflectionInput` literal. -/
def mkInput (f a c o t : String) : ReflectionInput := ⟨f, a, c, o, t⟩


/-! ### Record store and HTTP endpoints (`main.py`, lines 151 to 180)

The Mongo collection is modelled as an association list from canonical
record identifiers (24-character lowercase hex strings, the string form
of a BSON ObjectId) to stored documents.  `bson.ObjectId(rid)` accepts a
string exactly when it is 24 hex characters, and normalizes it to
lowercase; the query filter therefore amounts to a lookup at the
lowercased identifier.
-/

/-- Whether a character is a hexadecimal digit (either case). -/
def hexDigit (c : Char) : Bool :=
  ('0' ≤ c && c ≤ '9') || ('a' ≤ c && c ≤ 'f') || ('A' ≤ c && c ≤ 'F')

/-- Whether `bson.ObjectId` accepts the string: 24 hex characters. -/
def validObjectId (s : String) : Bool :=
  s.data.length == 24 && s.data.all hexDigit

/-- A stored `reflection` document (`schemas.py`, class `Reflection`):
every field may be absent from a raw Mongo document, and the generated
`guidance` field may additionally be present-but-null, hence the nested
`Option` there. -/
structure StoredDoc where
  feeling : Option String := none
  area : Option String := none
  challenge : Option String := none
  desired_outcome : Option String := none
  action_timeline : Option String := none
  distilled : Option String := none
  guidance : Option (Option (List String)) := none
  message : Option String := none
  emailed_to : Option String := none
  updated_at : Option Nat := none
deriving DecidableEq

/-- The `reflection` collection: identifier/document pairs. -/
abbrev ReflectionStore := List (String × StoredDoc)

/-- `get_documents` with an `_id` equality filter: the first document
whose identifier equals the key, if any. -/
def storeLookup : ReflectionStore → String → Option StoredDoc
  | [], _ => none
  | (k, v) :: rest, key => if k == key then some v else storeLookup rest key

/-- An HTTP error response, as raised via `HTTPException`. -/
structure HTTPError where
  status : Nat
  detail : String
deriving DecidableEq

/-- A Python exception raised inside a `try` block: either the
`bson.errors.InvalidId` raised by `ObjectId` on a malformed string, or
an `HTTPException` raised by the handler itself. -/
inductive PyExc where
  | invalidId (msg : String)
  | httpExc (status : Nat) (detail : String)
deriving DecidableEq

/-- The message of `bson.errors.InvalidId` for a malformed string. -/
def bsonInvalidIdMessage (rid : String) : String :=
  "\x27" ++ rid ++
    "\x27 is not a valid ObjectId, it must be a 12-byte input or a 24-character hex string"

/-- Python `str(e)` for the exceptions above (FastAPI renders an
`HTTPException` as `status: detail`). -/
def pyExcStr : PyExc → String
  | .invalidId m => m
  | .httpExc s d => toString s ++ ": " ++ d

/-- The record returned by the read endpoint: the stored document with
`_id` popped and rendered as the `id` string field. -/
structure RespDoc where
  id : String
  fields : StoredDoc
deriving DecidableEq

/-- `get_reflection` (`main.py`, lines 151 to 162).  The whole body runs
inside `try ... except Exception`, whose handler re-raises every caught
exception as a 400; because FastAPI `HTTPException` is itself an
`Exception`, the 404 raised for an absent record is caught by that
handler too. -/
def get_reflection (store : ReflectionStore) (rid : String) : Except HTTPError RespDoc :=
  let tryBody : Except PyExc RespDoc :=
    if validObjectId rid then
      match storeLookup store (pyLower rid) with
      | none => Except.error (PyExc.httpExc 404 "Reflection not found")
      | some doc => Except.ok ⟨pyLower rid, doc⟩
    else Except.error (PyExc.invalidId (bsonInvalidIdMessage rid))
  match tryBody with
  | Except.ok d => Except.ok d
  | Except.error e => Except.error ⟨400, "Invalid id or error: " ++ pyExcStr e⟩

/-- The JSON body returned by the email endpoint on success. -/
structure EmailAck where
  status : String
  message : String
  toAddr : String
deriving DecidableEq

/-- The `$set` document of the email update (`main.py`, line 176). -/
def setEmailFields (doc : StoredDoc) (email : String) (now : Nat) : StoredDoc :=
  { doc with emailed_to := some email, updated_at := some now }

/-- Mongo `update_one` with an `_id` filter: update the first matching
document, if any; matching nothing is not an error. -/
def updateOneEmail (store : ReflectionStore) (key email : String) (now : Nat) : ReflectionStore :=
  match store with
  | [] => []
  | (k, v) :: rest =>
    if k == key then (k, setEmailFields v email now) :: rest
    else (k, v) :: updateOneEmail rest key email now

/-- `email_reflection` (`main.py`, lines 169 to 180): parse the
identifier, run `update_one`, and report `queued` unconditionally; only
a raised exception (malformed identifier) produces a 400.  The endpoint
never inspects whether the update matched a document.  Returns the
updated store together with the response body. -/
def email_reflection (store : ReflectionStore) (rid email : String) (now : Nat) :
    Except HTTPError (ReflectionStore × EmailAck) :=
  if validObjectId rid then
    Except.ok (updateOneEmail store (pyLower rid) email now,
      ⟨"queued", "Email scheduled (simulated)", email⟩)
  else
    Except.error ⟨400, "Invalid id or error: " ++ bsonInvalidIdMessage rid⟩

/-! ### Export formatter (`main.py`, lines 183 to 254)

The byte-level rendering done by the spreadsheet and PDF libraries is
external; the embedding keeps what the handler computes: the ordered
label/value pairs written into the document, the media type, and the
suggested filename.
-/

/-- `doc.get("guidance", []) or []` (`main.py`, line 198): missing key,
null value and empty list all collapse to the empty list. -/
def pyGetList : Option (Option (List String)) → List String
  | none => []
  | some none => []
  | some (some xs) => xs

/-- The Guidance display value (`main.py`, line 198): a leading
line-break dash-bullet, then the items joined with line-break
dash-bullets. -/
def guidanceBlock (g : Option (Option (List String))) : String :=
  "\n- " ++ pyJoin "\n- " (pyGetList g)

/-- The eight ordered label/value pairs (`main.py`, lines 191 to 200),
shared by both export formats. -/
def exportSummary (doc : StoredDoc) : List (String × String) :=
  [("Feeling", doc.feeling.getD ""),
   ("Area", doc.area.getD ""),
   ("Challenge", doc.challenge.getD ""),
   ("Desired Outcome", doc.desired_outcome.getD ""),
   ("Action Timeline", doc.action_timeline.getD ""),
   ("Distilled", doc.distilled.getD ""),
   ("Guidance", guidanceBlock doc.guidance),
   ("Message", doc.message.getD "")]

/-- What the export handler streams back: the label/value pairs it
renders, the media type and the suggested attachment filename. -/
structure ExportResult where
  pairs : List (String × String)
  mediaType : String
  filename : String
deriving DecidableEq

/-- The xlsx media type (`main.py`, line 218). -/
def xlsxMediaType : String :=
  "application/vnd.openxmlformats-officedocument.spreadsheetml.sheet"

/-- `export_reflection` (`main.py`, lines 183 to 254): look the record
up, build the summary pairs, then branch on `format.lower() == "xlsx"`;
any other format value falls through to the PDF branch.  Here the
explicit `except HTTPException: raise` clause lets the 404 for an
absent record surface, while other exceptions (malformed identifier)
become a 500. -/
def export_reflection (store : ReflectionStore) (rid format : String) :
    Except HTTPError ExportResult :=
  if validObjectId rid then
    match storeLookup store (pyLower rid) with
    | none => Except.error ⟨404, "Reflection not found"⟩
    | some doc =>
      let summary := exportSummary doc
      if pyLower format == "xlsx" then
        Except.ok ⟨summary, xlsxMediaType, "direction-summary-" ++ rid ++ ".xlsx"⟩
      else
        Except.ok ⟨summary, "application/pdf", "direction-summary-" ++ rid ++ ".pdf"⟩
  else Except.error ⟨500, bsonInvalidIdMessage rid⟩

/-! ### Spec-side definitions used for comparison -/

/-- The distilled template exactly as the specification writes it, with
a plain ASCII apostrophe (U+0027) in the opening word. -/
def specDistilledTemplate (feeling area challenge desired : String) : String :=
  "You\x27re feeling " ++ feeling ++ " and seeking direction in " ++ area ++
  ". The core block seems to be: " ++ challenge ++
  ". You hope to come away with: " ++ desired ++ "."

/-- The distilled template as the code builds it, opening with the
typographic right single quotation mark (U+2019). -/
def codeDistilledTemplate (feeling area challenge desired : String) : String :=
  "You’re feeling " ++ feeling ++ " and seeking direction in " ++ area ++
  ". The core block seems to be: " ++ challenge ++
  ". You hope to come away with: " ++ desired ++ "."

/-! ### Theorems: Guidance Rule Engine -/

/-- Claim C1, counterexample: for feeling "stuck and hopeful", where
both the stuck group and the hopeful group match, the returned message
is the momentum line, not the reassurance line claimed; the stuck-group
check runs first but is overwritten, not protected, by the later
hopeful-group check. -/
theorem C1_counterexample :
    messageOf (mkInput "stuck and hopeful" "career" "no clarity" "a plan" "soon") =
      hopefulMessage ∧
    messageOf (mkInput "stuck and hopeful" "career" "no clarity" "a plan" "soon") ≠
      stuckMessage := by
  exact ⟨by decide, by decide⟩

/-- Claim C1, amended: when the normalized feeling matches a keyword of
both the stuck group and the hopeful group, the hopeful-group line wins,
because the two checks are independent if-statements and the
hopeful-group assignment runs last. -/
theorem C1_hopeful_group_wins (d : ReflectionInput)
    (_hs : stuckKeywords.any (fun k => pyContains (normFeeling d) k) = true)
    (hh : hopefulKeywords.any (fun k => pyContains (normFeeling d) k) = true) :
    messageOf d = hopefulMessage := by
  show feelingMessageFor (normFeeling d) = hopefulMessage
  unfold feelingMessageFor
  simp [hh]

/-- Claim C1 witness: the amended tie-break at feeling
"stuck and hopeful". -/
theorem C1_hopeful_group_wins_witness :
    messageOf (mkInput "stuck and hopeful" "career" "no clarity" "a plan" "soon") =
      hopefulMessage :=
  C1_hopeful_group_wins (mkInput "stuck and hopeful" "career" "no clarity" "a plan" "soon")
    (by decide) (by decide)

/-- Claim C4: when the normalized area contains both "career" and
"purpose" and none of the other category keywords, the guidance list is
exactly the two career suggestions, then the two purpose suggestions,
then the one timeline nudge, five elements in that order. -/
theorem C4_career_purpose_fanout (d : ReflectionInput)
    (h1 : pyContains (normArea d) "career" = true)
    (h2 : pyContains (normArea d) "purpose" = true)
    (h3 : pyContains (normArea d) "growth" = false)
    (h4 : pyContains (normArea d) "mindset" = false)
    (h5 : pyContains (normArea d) "relationship" = false)
    (h6 : pyContains (normArea d) "decision" = false) :
    guidanceOf d =
      careerSuggestions ++ purposeSuggestions ++ [timelineNudgeFor (normTimeline d)] ∧
    (guidanceOf d).length = 5 := by
  have hg : guidanceOf d = areaGuidance (normArea d) ++ [timelineNudgeFor (normTimeline d)] := rfl
  constructor
  · rw [hg]; unfold areaGuidance; simp [h1, h2, h3, h4, h5, h6]
  · rw [hg]; unfold areaGuidance
    simp [h1, h2, h3, h4, h5, h6, careerSuggestions, purposeSuggestions]

/-- Claim C4 witness: the fan-out at area "career and purpose". -/
theorem C4_career_purpose_fanout_witness :
    guidanceOf (mkInput "ok" "career and purpose" "no clarity" "a plan" "someday") =
      careerSuggestions ++ purposeSuggestions ++ [calmNudge] :=
  ((C4_career_purpose_fanout (mkInput "ok" "career and purpose" "no clarity" "a plan" "someday")
    (by decide) (by decide) (by decide) (by decide) (by decide) (by decide)).1).trans (by decide)

/-- Claim C5: for every input, exactly one timeline nudge ends the
guidance list (no nudge occurs earlier in the list), it is the urgent
nudge exactly when the normalized timeline contains an urgency keyword
and the calm nudge otherwise, and when the normalized area contains none
of the category keywords the guidance list is exactly the one nudge. -/
theorem C5_timeline_nudge_last (d : ReflectionInput) :
    (∃ pre : List String, guidanceOf d = pre ++ [timelineNudgeFor (normTimeline d)] ∧
       urgentNudge ∉ pre ∧ calmNudge ∉ pre) ∧
    (urgencyKeywords.any (fun k => pyContains (normTimeline d) k) = true →
       timelineNudgeFor (normTimeline d) = urgentNudge) ∧
    (urgencyKeywords.any (fun k => pyContains (normTimeline d) k) = false →
       timelineNudgeFor (normTimeline d) = calmNudge) ∧
    ((pyContains (normArea d) "career" = false ∧ pyContains (normArea d) "growth" = false ∧
      pyContains (normArea d) "mindset" = false ∧ pyContains (normArea d) "purpose" = false ∧
      pyContains (normArea d) "relationship" = false ∧
      pyContains (normArea d) "decision" = false) →
       guidanceOf d = [timelineNudgeFor (normTimeline d)]) := by
  have hg : guidanceOf d = areaGuidance (normArea d) ++ [timelineNudgeFor (normTimeline d)] := rfl
  refine ⟨⟨areaGuidance (normArea d), hg, ?_, ?_⟩, ?_, ?_, ?_⟩
  · unfold areaGuidance; split_ifs <;> decide
  · unfold areaGuidance; split_ifs <;> decide
  · intro h; unfold timelineNudgeFor; simp [h]
  · intro h; unfold timelineNudgeFor; simp [h]
  · rintro ⟨h1, h2, h3, h4, h5, h6⟩
    rw [hg]; unfold areaGuidance; simp [h1, h2, h3, h4, h5, h6]

/-- Claim C5 witness: an area matching no category yields exactly the
calm timeline nudge. -/
theorem C5_timeline_nudge_last_witness :
    guidanceOf (mkInput "fine" "life admin" "no clarity" "a plan" "eventually") =
      [calmNudge] :=
  ((C5_timeline_nudge_last (mkInput "fine" "life admin" "no clarity" "a plan" "eventually")).2.2.2
    (by exact ⟨by decide, by decide, by decide, by decide, by decide, by decide⟩)).trans (by decide)

/-- Claim C9: for every input, the guidance list has odd length between
1 and 11 inclusive, so it is in particular never empty. -/
theorem C9_guidance_length_odd (d : ReflectionInput) :
    (guidanceOf d).length % 2 = 1 ∧
    1 ≤ (guidanceOf d).length ∧ (guidanceOf d).length ≤ 11 := by
  have hg : guidanceOf d = areaGuidance (normArea d) ++ [timelineNudgeFor (normTimeline d)] := rfl
  have h : (areaGuidance (normArea d)).length % 2 = 0 ∧
      (areaGuidance (normArea d)).length ≤ 10 := by
    unfold areaGuidance; split_ifs <;> decide
  rw [hg, List.length_append]
  simp only [List.length_cons, List.length_nil]
  omega

/-- Claim C6, counterexample: at the specification section-8 example
input, the distilled string the engine produces differs from the
template as spelled in the specification, because the code opens with
the typographic apostrophe (U+2019) while the specification template
uses the ASCII apostrophe. -/
theorem C6_counterexample :
    distilledOf (mkInput "stuck" "career" "no clarity" "a plan" "this week") ≠
      specDistilledTemplate "stuck" "career" "no clarity" "a plan" := by decide

/-- Claim C6, amended: for every input the distilled string equals the
fixed template with the typographic apostrophe, with feeling and area
substituted lowercased and trimmed and challenge and desired outcome
substituted trimmed, case preserved. -/
theorem C6_distilled_template (d : ReflectionInput) :
    distilledOf d =
      codeDistilledTemplate (pyLower (pyStrip d.feeling)) (pyLower (pyStrip d.area))
        (pyStrip d.challenge) (pyStrip d.desired_outcome) := rfl

/-! ### Fixtures shared by the endpoint theorems -/

/-- A sample record identifier: 24 hex characters. -/
def ridA : String := "aaaaaaaaaaaaaaaaaaaaaaaa"

/-- A sample stored document with two guidance entries. -/
def doc0 : StoredDoc :=
  { feeling := some "stuck", area := some "career", challenge := some "no clarity",
    desired_outcome := some "a plan", action_timeline := some "this week",
    distilled := some "d", guidance := some (some ["g1", "g2"]), message := some "m" }

/-- A one-record store holding `doc0` at `ridA`. -/
def store1 : ReflectionStore := [(ridA, doc0)]

/-- The dash-bullet display block exactly as the specification words it:
one leading line break per item, each item prefixed by a dash-bullet. -/
def bulletBlock : List String → String
  | [] => ""
  | s :: t => "\n- " ++ s ++ bulletBlock t

/-- Appending the empty string on the right is the identity. -/
theorem stringAppendEmpty (s : String) : s ++ "" = s := by
  cases s with
  | mk l => show String.mk (l ++ []) = String.mk l; rw [List.append_nil]

/-- On a nonempty list, the code's Guidance join (a leading dash-bullet
followed by the dash-bullet-separated join) agrees with the per-item
dash-bullet block of the specification. -/
theorem bulletBlock_eq_join (gs : List String) (h : gs ≠ []) :
    "\n- " ++ pyJoin "\n- " gs = bulletBlock gs := by
  induction gs with
  | nil => exact absurd rfl h
  | cons a t ih =>
    cases t with
    | nil => simp [pyJoin, bulletBlock, stringAppendEmpty]
    | cons b t2 =>
      have ih2 := ih (List.cons_ne_nil b t2)
      simp only [pyJoin, bulletBlock] at ih2 ⊢
      rw [← ih2]
      simp [String.append_assoc]

-- Decidable equality of endpoint results, for concrete evaluation.
deriving instance DecidableEq for Except

/-! ### Theorems: store endpoints -/

/-- Claim C2: at a well-formed identifier that matches no stored record,
`get_reflection` answers 400, not the claimed 404 — the 404 it raises
internally is caught by its own catch-all handler and re-raised as 400.
A malformed identifier does answer 400, and on success the stored record
comes back with the identifier under `id`. -/
theorem C2_get_reflection_status :
    get_reflection [] "0123456789abcdef01234567" =
      Except.error ⟨400, "Invalid id or error: 404: Reflection not found"⟩ ∧
    get_reflection [] "not-an-id" =
      Except.error ⟨400, "Invalid id or error: " ++ bsonInvalidIdMessage "not-an-id"⟩ ∧
    get_reflection store1 ridA = Except.ok ⟨ridA, doc0⟩ := by
  refine ⟨by decide, by decide, by decide⟩

/-- Claim C3, counterexample: at a well-formed identifier that matches
no stored record, the email endpoint does not fail with NotFound — it
answers success (`queued`) and leaves the store unchanged. -/
theorem C3_counterexample :
    validObjectId "0123456789abcdef01234567" = true ∧
    email_reflection [] "0123456789abcdef01234567" "user@example.com" 0 =
      Except.ok ([], ⟨"queued", "Email scheduled (simulated)", "user@example.com"⟩) := by
  refine ⟨by decide, by decide⟩

/-- Updating the email fields of the document a key maps to is visible
at that key afterwards. -/
theorem storeLookup_updateOneEmail (store : ReflectionStore) (key email : String) (now : Nat)
    (doc : StoredDoc) (h : storeLookup store key = some doc) :
    storeLookup (updateOneEmail store key email now) key =
      some (setEmailFields doc email now) := by
  induction store with
  | nil => simp [storeLookup] at h
  | cons p rest ih =>
    obtain ⟨k, v⟩ := p
    cases hk : (k == key) with
    | true =>
      simp [storeLookup, hk, updateOneEmail] at h ⊢
      rw [h]
    | false =>
      simp [storeLookup, hk, updateOneEmail] at h ⊢
      exact ih h

/-- Claim C3, amended: the email endpoint fails with 400 exactly when
the identifier is malformed; for every well-formed identifier it
answers success (`queued`) whether or not a record matches, and when a
record does exist at the identifier it receives `emailed_to` and the
update timestamp. -/
theorem C3_email_update (store : ReflectionStore) (rid email : String) (now : Nat) :
    (validObjectId rid = false →
       email_reflection store rid email now =
         Except.error ⟨400, "Invalid id or error: " ++ bsonInvalidIdMessage rid⟩) ∧
    (validObjectId rid = true →
       email_reflection store rid email now =
         Except.ok (updateOneEmail store (pyLower rid) email now,
           ⟨"queued", "Email scheduled (simulated)", email⟩)) ∧
    (∀ doc : StoredDoc, storeLookup store (pyLower rid) = some doc →
       storeLookup (updateOneEmail store (pyLower rid) email now) (pyLower rid) =
         some (setEmailFields doc email now)) := by
  refine ⟨?_, ?_, ?_⟩
  · intro h; unfold email_reflection; simp [h]
  · intro h; unfold email_reflection; simp [h]
  · intro doc hdoc; exact storeLookup_updateOneEmail store (pyLower rid) email now doc hdoc

/-- Claim C3 witness: a well-formed identifier with a matching record is
acknowledged `queued`, and the record receives the email fields. -/
theorem C3_email_update_witness :
    email_reflection store1 ridA "user@example.com" 7 =
      Except.ok ([(ridA, setEmailFields doc0 "user@example.com" 7)],
        ⟨"queued", "Email scheduled (simulated)", "user@example.com"⟩) :=
  ((C3_email_update store1 ridA "user@example.com" 7).2.1 (by decide)).trans (by decide)

/-! ### Theorems: export formatter -/

/-- Claim C7: for every stored record with a (well-formed, engine
derived, hence nonempty) guidance list, the export produces the eight
ordered label/value pairs, with the Guidance value equal to the
dash-bullet display block and every other value the corresponding field
or the empty string when absent; the pairs are the same for every
format argument, in particular for pdf and xlsx. -/
theorem C7_export_pairs (store : ReflectionStore) (rid fmt : String) (doc : StoredDoc)
    (gs : List String) (hv : validObjectId rid = true)
    (hs : storeLookup store (pyLower rid) = some doc)
    (hg : doc.guidance = some (some gs)) (hne : gs ≠ []) :
    ∃ r : ExportResult, export_reflection store rid fmt = Except.ok r ∧
      r.pairs =
        [("Feeling", doc.feeling.getD ""),
         ("Area", doc.area.getD ""),
         ("Challenge", doc.challenge.getD ""),
         ("Desired Outcome", doc.desired_outcome.getD ""),
         ("Action Timeline", doc.action_timeline.getD ""),
         ("Distilled", doc.distilled.getD ""),
         ("Guidance", bulletBlock gs),
         ("Message", doc.message.getD "")] := by
  have hb : guidanceBlock doc.guidance = bulletBlock gs := by
    rw [hg]
    show "\n- " ++ pyJoin "\n- " gs = bulletBlock gs
    exact bulletBlock_eq_join gs hne
  unfold export_reflection
  simp only [hv, hs]
  cases hf : (pyLower fmt == "xlsx") with
  | true =>
    refine ⟨⟨exportSummary doc, xlsxMediaType, "direction-summary-" ++ rid ++ ".xlsx"⟩,
      by simp [hf], ?_⟩
    simp [exportSummary, hb]
  | false =>
    refine ⟨⟨exportSummary doc, "application/pdf", "direction-summary-" ++ rid ++ ".pdf"⟩,
      by simp [hf], ?_⟩
    simp [exportSummary, hb]

/-- Claim C7 witness: the pairs of the sample record, exported as pdf. -/
theorem C7_export_pairs_witness :
    ∃ r : ExportResult, export_reflection store1 ridA "pdf" = Except.ok r ∧
      r.pairs =
        [("Feeling", doc0.feeling.getD ""),
         ("Area", doc0.area.getD ""),
         ("Challenge", doc0.challenge.getD ""),
         ("Desired Outcome", doc0.desired_outcome.getD ""),
         ("Action Timeline", doc0.action_timeline.getD ""),
         ("Distilled", doc0.distilled.getD ""),
         ("Guidance", bulletBlock ["g1", "g2"]),
         ("Message", doc0.message.getD "")] :=
  C7_export_pairs store1 ridA "pdf" doc0 ["g1", "g2"] (by decide) (by decide) rfl (by decide)

/-- Claim C8, counterexample: the format argument "XLSX" differs from
"xlsx" yet does not fall back to pdf — the handler lowercases the
format before comparing, so "XLSX" selects the spreadsheet branch. -/
theorem C8_counterexample :
    "XLSX" ≠ "xlsx" ∧
    export_reflection store1 ridA "XLSX" =
      Except.ok ⟨exportSummary doc0, xlsxMediaType, "direction-summary-" ++ ridA ++ ".xlsx"⟩ ∧
    export_reflection store1 ridA "XLSX" ≠ export_reflection store1 ridA "pdf" := by
  refine ⟨by decide, by decide, by decide⟩

/-- Claim C8, amended: for every format argument whose lowercased form
is not "xlsx" the export falls back to pdf without an error, and for
both branches the suggested filename is direction-summary-, the
identifier, and the extension of the chosen format. -/
theorem C8_format_fallback (store : ReflectionStore) (rid fmt : String) (doc : StoredDoc)
    (hv : validObjectId rid = true)
    (hs : storeLookup store (pyLower rid) = some doc) :
    (pyLower fmt ≠ "xlsx" →
       export_reflection store rid fmt =
         Except.ok ⟨exportSummary doc, "application/pdf",
           "direction-summary-" ++ rid ++ ".pdf"⟩) ∧
    (pyLower fmt = "xlsx" →
       export_reflection store rid fmt =
         Except.ok ⟨exportSummary doc, xlsxMediaType,
           "direction-summary-" ++ rid ++ ".xlsx"⟩) := by
  constructor
  · intro h
    have hf : (pyLower fmt == "xlsx") = false := by
      simpa using h
    unfold export_reflection
    simp [hv, hs, hf]
  · intro h
    have hf : (pyLower fmt == "xlsx") = true := by
      simpa using h
    unfold export_reflection
    simp [hv, hs, hf]

/-- Claim C8 witness: an unrecognized format argument produces the pdf
result and its filename. -/
theorem C8_format_fallback_witness :
    export_reflection store1 ridA "docx" =
      Except.ok ⟨exportSummary doc0, "application/pdf",
        "direction-summary-" ++ ridA ++ ".pdf"⟩ :=
  (C8_format_fallback store1 ridA "docx" doc0 (by decide) (by decide)).1 (by decide)

/-- Claim C10, counterexample: when the stored guidance is absent, null
or the empty list, the export Guidance value is the string of a line
break, a dash and a space — three characters, not the two characters the
claim asserts. -/
theorem C10_counterexample :
    guidanceBlock none = "\n- " ∧
    guidanceBlock (some none) = "\n- " ∧
    guidanceBlock (some (some [])) = "\n- " ∧
    (guidanceBlock none).length ≠ 2 := by
  refine ⟨by decide, by decide, by decide, by decide⟩

/-- Claim C10, amended: for every stored record whose guidance resolves
to the empty list (absent, null or empty), the export Guidance value is
the three-character dangling dash-bullet, never the empty string. -/
theorem C10_dangling_bullet (doc : StoredDoc) (h : pyGetList doc.guidance = []) :
    (exportSummary doc)[6]? = some ("Guidance", "\n- ") ∧
    (guidanceBlock doc.guidance).length = 3 ∧
    guidanceBlock doc.guidance ≠ "" := by
  have hb : guidanceBlock doc.guidance = "\n- " := by
    unfold guidanceBlock
    rw [h]
    decide
  refine ⟨?_, by rw [hb]; decide, by rw [hb]; decide⟩
  simp [exportSummary, hb]

/-- Claim C10 witness: the export of the all-defaults record carries the
dangling dash-bullet as its Guidance value. -/
theorem C10_dangling_bullet_witness :
    (exportSummary {})[6]? = some ("Guidance", "\n- ") :=
  (C10_dangling_bullet {} rfl).1
